import Mathlib

/-!
Shallow embedding of `drivers/gpu/drm/msm/hdmi-staging/sde_hdmi.h`.

The header defines three structures (`sde_hdmi_info`, `sde_hdmi_ctrl`,
`sde_hdmi`) and, when `CONFIG_DRM_SDE_HDMI` is unset, twelve `static inline`
stub functions whose bodies are a single `return` of a constant.

Embedding conventions:
* `u32` is the kernel's unsigned 32-bit integer, modelled as `Fin (2 ^ 32)`.
* External kernel types that the header only refers to through pointers
  (`struct hdmi`, `struct device_node`, `struct platform_device`,
  `struct drm_device`, `struct dentry`, `struct drm_connector`,
  `struct drm_display_mode`, `struct drm_encoder`, `struct msm_display_info`,
  `struct list_head`, `struct mutex`, `struct work_struct`) are modelled as
  abstract handles carrying a numeric address / raw payload; no stub ever
  dereferences or mutates them.
* A C function that receives pointer arguments is embedded as a Lean function
  that receives the pointed-to objects by value and returns its C result
  paired with the post-state of those objects.  Every stub body in the
  disabled-feature branch is a single `return` with no assignment, so the
  post-state components are the inputs, unchanged.
* The `void *display` parameter of the connector operations is the private
  display handle, which in this driver is the `struct sde_hdmi` object, so it
  is embedded at type `sde_hdmi`.
-/

/-- Unsigned 32-bit integer: the kernel `u32` type. -/
abbrev u32 := Fin 4294967296

/-- Abstract handle to a `struct hdmi` controller device (declared in
`hdmi.h`, referred to only by pointer in this header). -/
structure hdmi where
  addr : Nat
deriving DecidableEq, Repr

/-- Abstract handle to a device-tree node (`struct device_node`). -/
structure device_node where
  addr : Nat
deriving DecidableEq, Repr

/-- Abstract handle to a `struct platform_device`. -/
structure platform_device where
  addr : Nat
deriving DecidableEq, Repr

/-- Abstract handle to a `struct drm_device`. -/
structure drm_device where
  addr : Nat
deriving DecidableEq, Repr

/-- Abstract `struct list_head`: a doubly linked list link (two pointers). -/
structure list_head where
  next : Nat
  prev : Nat
deriving DecidableEq, Repr

/-- Abstract `struct mutex`, modelled by its owner word only; no stub
touches it. -/
structure mutex where
  owner : Nat
deriving DecidableEq, Repr

/-- Abstract `struct work_struct`; no stub touches it. -/
structure work_struct where
  data : Nat
deriving DecidableEq, Repr

/-- Abstract handle to a debugfs `struct dentry`. -/
structure dentry where
  addr : Nat
deriving DecidableEq, Repr

/-- Abstract `struct drm_connector` object, as seen through the
`connector` pointer arguments; the stubs never read or write it. -/
structure drm_connector where
  addr : Nat
deriving DecidableEq, Repr

/-- Abstract `struct drm_display_mode` object; the stub `sde_hdmi_mode_valid`
never reads it. -/
structure drm_display_mode where
  addr : Nat
deriving DecidableEq, Repr

/-- Abstract `struct drm_encoder` object. -/
structure drm_encoder where
  addr : Nat
deriving DecidableEq, Repr

/-- Abstract `struct msm_display_info` object pointed to by the `info`
argument of `sde_hdmi_get_info`; the stub never writes it. -/
structure msm_display_info where
  raw : Nat
deriving DecidableEq, Repr

/-- Abstract sde connector info object pointed to by the `void *info`
argument of the connector post-init stub. -/
structure sde_connector_info where
  raw : Nat
deriving DecidableEq, Repr

/-- The `enum drm_connector_status` values from the DRM core headers
(referenced by this header, defined in `drm_crtc.h`): connected,
disconnected, unknown. -/
inductive drm_connector_status where
  | connector_status_connected
  | connector_status_disconnected
  | connector_status_unknown
deriving DecidableEq, Repr

/-- The `enum drm_mode_status` values from the DRM core headers that are
relevant here: `MODE_OK` means the mode is usable; the remaining
constructors stand for the rejection codes of the enum (only `MODE_OK`
appears in this header). -/
inductive drm_mode_status where
  | MODE_OK
  | MODE_HSYNC
  | MODE_VSYNC
  | MODE_NOMODE
  | MODE_NOCLOCK
  | MODE_BAD
  | MODE_ERROR
deriving DecidableEq, Repr

/-- `struct sde_hdmi_info` (sde_hdmi.h lines 36-47): hdmi display
properties.  `const char *display_type` is modelled as a `String`. -/
structure sde_hdmi_info where
  display_type : String
  is_hot_pluggable : Bool
  is_connected : Bool
  is_edid_supported : Bool
  width_mm : u32
  height_mm : u32
deriving DecidableEq, Repr

/-- `struct sde_hdmi_ctrl` (sde_hdmi.h lines 55-60): hdmi ctrl/phy
information for the display. -/
structure sde_hdmi_ctrl where
  ctrl : hdmi
  ctrl_of_node : device_node
  hdmi_ctrl_idx : u32
deriving DecidableEq, Repr

/-- `struct sde_hdmi` (sde_hdmi.h lines 79-100): hdmi display information. -/
structure sde_hdmi where
  pdev : platform_device
  drm_dev : drm_device
  name : String
  display_type : String
  list : list_head
  display_lock : mutex
  ctrl : sde_hdmi_ctrl
  non_pluggable : Bool
  num_of_modes : u32
  mode_list : list_head
  connected : Bool
  is_tpg_enabled : Bool
  hpd_work : work_struct
  root : dentry
deriving DecidableEq, Repr

/-! ## Stubs of the disabled-feature branch (`CONFIG_DRM_SDE_HDMI` unset)

Each definition below embeds one `static inline` stub from lines 229-300 of
the header.  The C body is a single `return` of a constant; the Lean value
pairs that constant with the unchanged pointed-to objects. -/

/-- Stub `sde_hdmi_get_num_of_displays` (lines 229-232): `return 0;`. -/
def sde_hdmi_get_num_of_displays : Unit → u32 :=
  fun _ => 0

/-- Stub `sde_hdmi_get_displays` (lines 234-238): `return 0;`.  The
`display_array` out-parameter (a `void **` display list) is modelled as the
list of display addresses it points to; the stub never writes it. -/
def sde_hdmi_get_displays (display_array : List Nat) (max_display_count : u32) :
    Int × List Nat :=
  let _ := max_display_count
  (0, display_array)

/-- Stub `sde_hdmi_connector_pre_deinit` (lines 240-244): `return 0;`. -/
def sde_hdmi_connector_pre_deinit (connector : drm_connector) (display : sde_hdmi) :
    Int × drm_connector × sde_hdmi :=
  (0, connector, display)

/-- Stub `sde_hdmi_connector_post_init` (lines 246-251): `return 0;`. -/
def sde_hdmi_connector_post_init (connector : drm_connector)
    (info : sde_connector_info) (display : sde_hdmi) :
    Int × drm_connector × sde_connector_info × sde_hdmi :=
  (0, connector, info, display)

/-- Stub `sde_hdmi_connector_detect` (lines 253-259):
`return connector_status_disconnected;`. -/
def sde_hdmi_connector_detect (connector : drm_connector) (force : Bool)
    (display : sde_hdmi) :
    drm_connector_status × drm_connector × sde_hdmi :=
  let _ := force
  (.connector_status_disconnected, connector, display)

/-- Stub `sde_hdmi_connector_get_modes` (lines 261-265): `return 0;`. -/
def sde_hdmi_connector_get_modes (connector : drm_connector) (display : sde_hdmi) :
    Int × drm_connector × sde_hdmi :=
  (0, connector, display)

/-- Stub `sde_hdmi_mode_valid` (lines 267-273): `return MODE_OK;`. -/
def sde_hdmi_mode_valid (connector : drm_connector) (mode : drm_display_mode)
    (display : sde_hdmi) :
    drm_mode_status × drm_connector × drm_display_mode × sde_hdmi :=
  (.MODE_OK, connector, mode, display)

/-- Stub `sde_hdmi_dev_init` (lines 275-278): `return 0;`. -/
def sde_hdmi_dev_init (display : sde_hdmi) : Int × sde_hdmi :=
  (0, display)

/-- Stub `sde_hdmi_dev_deinit` (lines 280-283): `return 0;`. -/
def sde_hdmi_dev_deinit (display : sde_hdmi) : Int × sde_hdmi :=
  (0, display)

/-- Stub `sde_hdmi_drm_init` (lines 285-289): `return 0;`. -/
def sde_hdmi_drm_init (display : sde_hdmi) (enc : drm_encoder) :
    Int × sde_hdmi × drm_encoder :=
  (0, display, enc)

/-- Stub `sde_hdmi_drm_deinit` (lines 291-294): `return 0;`. -/
def sde_hdmi_drm_deinit (display : sde_hdmi) : Int × sde_hdmi :=
  (0, display)

/-- Stub `sde_hdmi_get_info` (lines 296-300): `return 0;`. -/
def sde_hdmi_get_info (info : msm_display_info) (display : sde_hdmi) :
    Int × msm_display_info × sde_hdmi :=
  (0, info, display)

/-! ## Declaration surface of the header

The two preprocessor branches of the header are embedded as explicit lists
of function declarations, so that their interfaces can be compared. -/

/-- C types appearing in the parameter and return positions of the
declarations of this header. -/
inductive CType where
  | void_t
  | u32_t
  | int_t
  | bool_t
  | void_ptr
  | void_ptr_ptr
  | drm_connector_ptr
  | drm_display_mode_ptr
  | drm_encoder_ptr
  | sde_hdmi_ptr
  | msm_display_info_ptr
  | drm_connector_status_t
  | drm_mode_status_t
deriving DecidableEq, Repr

/-- A C function declaration: name, parameter types in order, return type. -/
structure FunDecl where
  name : String
  params : List CType
  ret : CType
deriving DecidableEq, Repr

/-- The twelve prototypes of the `CONFIG_DRM_SDE_HDMI`-enabled branch
(sde_hdmi.h lines 102-225), in source order. -/
def enabledDecls : List FunDecl :=
  [ ⟨"sde_hdmi_get_num_of_displays", [], .u32_t⟩,
    ⟨"sde_hdmi_get_displays", [.void_ptr_ptr, .u32_t], .int_t⟩,
    ⟨"sde_hdmi_connector_pre_deinit", [.drm_connector_ptr, .void_ptr], .int_t⟩,
    ⟨"sde_hdmi_connector_post_init",
      [.drm_connector_ptr, .void_ptr, .void_ptr], .int_t⟩,
    ⟨"sde_hdmi_connector_detect",
      [.drm_connector_ptr, .bool_t, .void_ptr], .drm_connector_status_t⟩,
    ⟨"sde_hdmi_connector_get_modes", [.drm_connector_ptr, .void_ptr], .int_t⟩,
    ⟨"sde_hdmi_mode_valid",
      [.drm_connector_ptr, .drm_display_mode_ptr, .void_ptr], .drm_mode_status_t⟩,
    ⟨"sde_hdmi_dev_init", [.sde_hdmi_ptr], .int_t⟩,
    ⟨"sde_hdmi_dev_deinit", [.sde_hdmi_ptr], .int_t⟩,
    ⟨"sde_hdmi_drm_init", [.sde_hdmi_ptr, .drm_encoder_ptr], .int_t⟩,
    ⟨"sde_hdmi_drm_deinit", [.sde_hdmi_ptr], .int_t⟩,
    ⟨"sde_hdmi_get_info", [.msm_display_info_ptr, .void_ptr], .int_t⟩ ]

/-- A stub definition of the compiled-out branch: its declaration together
with whether it is marked `static inline`. -/
structure StubDecl where
  decl : FunDecl
  static_inline : Bool
deriving DecidableEq, Repr

/-- The twelve `static inline` stubs of the compiled-out branch
(sde_hdmi.h lines 229-300), in source order. -/
def stubDecls : List StubDecl :=
  [ ⟨⟨"sde_hdmi_get_num_of_displays", [], .u32_t⟩, true⟩,
    ⟨⟨"sde_hdmi_get_displays", [.void_ptr_ptr, .u32_t], .int_t⟩, true⟩,
    ⟨⟨"sde_hdmi_connector_pre_deinit",
      [.drm_connector_ptr, .void_ptr], .int_t⟩, true⟩,
    ⟨⟨"sde_hdmi_connector_post_init",
      [.drm_connector_ptr, .void_ptr, .void_ptr], .int_t⟩, true⟩,
    ⟨⟨"sde_hdmi_connector_detect",
      [.drm_connector_ptr, .bool_t, .void_ptr], .drm_connector_status_t⟩, true⟩,
    ⟨⟨"sde_hdmi_connector_get_modes",
      [.drm_connector_ptr, .void_ptr], .int_t⟩, true⟩,
    ⟨⟨"sde_hdmi_mode_valid",
      [.drm_connector_ptr, .drm_display_mode_ptr, .void_ptr],
      .drm_mode_status_t⟩, true⟩,
    ⟨⟨"sde_hdmi_dev_init", [.sde_hdmi_ptr], .int_t⟩, true⟩,
    ⟨⟨"sde_hdmi_dev_deinit", [.sde_hdmi_ptr], .int_t⟩, true⟩,
    ⟨⟨"sde_hdmi_drm_init", [.sde_hdmi_ptr, .drm_encoder_ptr], .int_t⟩, true⟩,
    ⟨⟨"sde_hdmi_drm_deinit", [.sde_hdmi_ptr], .int_t⟩, true⟩,
    ⟨⟨"sde_hdmi_get_info",
      [.msm_display_info_ptr, .void_ptr], .int_t⟩, true⟩ ]

/-! ## Spec-side structure descriptions (for the refinement claims) -/

/-- Structure written from the spec's words for `sde_hdmi_info`: a
`display_type` string, booleans for hot-plug capability, connection state
and EDID support, and physical panel width and height in millimeters as
unsigned 32-bit integers. -/
structure SpecHdmiInfo where
  display_type : String
  is_hot_pluggable : Bool
  is_connected : Bool
  is_edid_supported : Bool
  width_mm : u32
  height_mm : u32
deriving DecidableEq, Repr

/-- Structure written from the spec's words for the controller/PHY binding:
a handle to the HDMI controller device, the controller's device-tree node,
and a u32 controller instance id. -/
structure SpecHdmiCtrl where
  ctrl : hdmi
  ctrl_of_node : device_node
  hdmi_ctrl_idx : u32
deriving DecidableEq, Repr

/-- Field-for-field map from the source structure `sde_hdmi_info` to the
spec-side description. -/
def infoToSpec (x : sde_hdmi_info) : SpecHdmiInfo :=
  ⟨x.display_type, x.is_hot_pluggable, x.is_connected,
    x.is_edid_supported, x.width_mm, x.height_mm⟩

/-- Field-for-field map from the spec-side description back to the source
structure `sde_hdmi_info`. -/
def specToInfo (y : SpecHdmiInfo) : sde_hdmi_info :=
  ⟨y.display_type, y.is_hot_pluggable, y.is_connected,
    y.is_edid_supported, y.width_mm, y.height_mm⟩

/-- Field-for-field map from the source structure `sde_hdmi_ctrl` to the
spec-side description. -/
def ctrlToSpec (x : sde_hdmi_ctrl) : SpecHdmiCtrl :=
  ⟨x.ctrl, x.ctrl_of_node, x.hdmi_ctrl_idx⟩

/-- Field-for-field map from the spec-side description back to the source
structure `sde_hdmi_ctrl`. -/
def specToCtrl (y : SpecHdmiCtrl) : sde_hdmi_ctrl :=
  ⟨y.ctrl, y.ctrl_of_node, y.hdmi_ctrl_idx⟩

/-! ## Theorems -/

/-- C1: with `CONFIG_DRM_SDE_HDMI` unset, `sde_hdmi_connector_detect`
returns `connector_status_disconnected` for every connector, every force
value and every display handle (in particular also when `force = true` or
the display's `connected` field is `true`). -/
theorem detect_always_disconnected (connector : drm_connector) (force : Bool)
    (display : sde_hdmi) :
    (sde_hdmi_connector_detect connector force display).1 =
      drm_connector_status.connector_status_disconnected :=
  rfl

/-- C2: with `CONFIG_DRM_SDE_HDMI` unset, `sde_hdmi_mode_valid` returns
`MODE_OK` for every connector, every display mode and every display handle:
the disabled-feature configuration reports every mode valid. -/
theorem mode_valid_always_ok (connector : drm_connector)
    (mode : drm_display_mode) (display : sde_hdmi) :
    (sde_hdmi_mode_valid connector mode display).1 = drm_mode_status.MODE_OK :=
  rfl

/-- C3: with `CONFIG_DRM_SDE_HDMI` unset, each of the nine int-returning
stubs returns 0 on every input, so no operation of the disabled-feature
path ever reports an error code. -/
theorem int_stubs_return_zero :
    (∀ a m, (sde_hdmi_get_displays a m).1 = 0) ∧
    (∀ c d, (sde_hdmi_connector_pre_deinit c d).1 = 0) ∧
    (∀ c i d, (sde_hdmi_connector_post_init c i d).1 = 0) ∧
    (∀ c d, (sde_hdmi_connector_get_modes c d).1 = 0) ∧
    (∀ d, (sde_hdmi_dev_init d).1 = 0) ∧
    (∀ d, (sde_hdmi_dev_deinit d).1 = 0) ∧
    (∀ d e, (sde_hdmi_drm_init d e).1 = 0) ∧
    (∀ d, (sde_hdmi_drm_deinit d).1 = 0) ∧
    (∀ i d, (sde_hdmi_get_info i d).1 = 0) :=
  ⟨fun _ _ => rfl, fun _ _ => rfl, fun _ _ _ => rfl, fun _ _ => rfl,
   fun _ => rfl, fun _ => rfl, fun _ _ => rfl, fun _ => rfl, fun _ _ => rfl⟩

/-- C4: the enabled branch declares twelve entry points, from
`sde_hdmi_get_num_of_displays` through `sde_hdmi_get_info`, and the
compiled-out branch contains a `static inline` stub of the same name,
parameter types and return type for each, so the public interface is total
in both configurations. -/
theorem interface_total_in_both_configs :
    enabledDecls.length = 12 ∧
    stubDecls.map StubDecl.decl = enabledDecls ∧
    stubDecls.all StubDecl.static_inline = true ∧
    (enabledDecls.map FunDecl.name).head? =
      some "sde_hdmi_get_num_of_displays" ∧
    (enabledDecls.map FunDecl.name).getLast? = some "sde_hdmi_get_info" :=
  ⟨rfl, rfl, rfl, rfl, rfl⟩

/-- C5: with `CONFIG_DRM_SDE_HDMI` unset, every stub leaves all state
reachable through its pointer arguments unchanged: `sde_hdmi_get_displays`
does not write `display_array`, `sde_hdmi_get_info` does not write `info`,
and no stub modifies the `sde_hdmi` display object or any other pointed-to
argument. -/
theorem stubs_leave_state_unchanged :
    (∀ a m, (sde_hdmi_get_displays a m).2 = a) ∧
    (∀ c d, (sde_hdmi_connector_pre_deinit c d).2 = (c, d)) ∧
    (∀ c i d, (sde_hdmi_connector_post_init c i d).2 = (c, i, d)) ∧
    (∀ c f d, (sde_hdmi_connector_detect c f d).2 = (c, d)) ∧
    (∀ c d, (sde_hdmi_connector_get_modes c d).2 = (c, d)) ∧
    (∀ c m d, (sde_hdmi_mode_valid c m d).2 = (c, m, d)) ∧
    (∀ d, (sde_hdmi_dev_init d).2 = d) ∧
    (∀ d, (sde_hdmi_dev_deinit d).2 = d) ∧
    (∀ d e, (sde_hdmi_drm_init d e).2 = (d, e)) ∧
    (∀ d, (sde_hdmi_drm_deinit d).2 = d) ∧
    (∀ i d, (sde_hdmi_get_info i d).2 = (i, d)) :=
  ⟨fun _ _ => rfl, fun _ _ => rfl, fun _ _ _ => rfl, fun _ _ _ => rfl,
   fun _ _ => rfl, fun _ _ _ => rfl, fun _ => rfl, fun _ => rfl,
   fun _ _ => rfl, fun _ => rfl, fun _ _ => rfl⟩

/-- C6: with `CONFIG_DRM_SDE_HDMI` unset, every stub is deterministic and
its result is independent of all of its inputs: any two calls to the same
stub, with arbitrary and possibly different arguments, return equal values
(in particular `sde_hdmi_connector_detect` does not depend on `force` or on
the display's state). -/
theorem stub_results_independent_of_inputs :
    (∀ x y, sde_hdmi_get_num_of_displays x = sde_hdmi_get_num_of_displays y) ∧
    (∀ a₁ m₁ a₂ m₂,
      (sde_hdmi_get_displays a₁ m₁).1 = (sde_hdmi_get_displays a₂ m₂).1) ∧
    (∀ c₁ d₁ c₂ d₂, (sde_hdmi_connector_pre_deinit c₁ d₁).1 =
      (sde_hdmi_connector_pre_deinit c₂ d₂).1) ∧
    (∀ c₁ i₁ d₁ c₂ i₂ d₂, (sde_hdmi_connector_post_init c₁ i₁ d₁).1 =
      (sde_hdmi_connector_post_init c₂ i₂ d₂).1) ∧
    (∀ c₁ f₁ d₁ c₂ f₂ d₂, (sde_hdmi_connector_detect c₁ f₁ d₁).1 =
      (sde_hdmi_connector_detect c₂ f₂ d₂).1) ∧
    (∀ c₁ d₁ c₂ d₂, (sde_hdmi_connector_get_modes c₁ d₁).1 =
      (sde_hdmi_connector_get_modes c₂ d₂).1) ∧
    (∀ c₁ m₁ d₁ c₂ m₂ d₂, (sde_hdmi_mode_valid c₁ m₁ d₁).1 =
      (sde_hdmi_mode_valid c₂ m₂ d₂).1) ∧
    (∀ d₁ d₂, (sde_hdmi_dev_init d₁).1 = (sde_hdmi_dev_init d₂).1) ∧
    (∀ d₁ d₂, (sde_hdmi_dev_deinit d₁).1 = (sde_hdmi_dev_deinit d₂).1) ∧
    (∀ d₁ e₁ d₂ e₂,
      (sde_hdmi_drm_init d₁ e₁).1 = (sde_hdmi_drm_init d₂ e₂).1) ∧
    (∀ d₁ d₂, (sde_hdmi_drm_deinit d₁).1 = (sde_hdmi_drm_deinit d₂).1) ∧
    (∀ i₁ d₁ i₂ d₂,
      (sde_hdmi_get_info i₁ d₁).1 = (sde_hdmi_get_info i₂ d₂).1) :=
  ⟨fun _ _ => rfl, fun _ _ _ _ => rfl, fun _ _ _ _ => rfl,
   fun _ _ _ _ _ _ => rfl, fun _ _ _ _ _ _ => rfl, fun _ _ _ _ => rfl,
   fun _ _ _ _ _ _ => rfl, fun _ _ => rfl, fun _ _ => rfl,
   fun _ _ _ _ => rfl, fun _ _ => rfl, fun _ _ _ _ => rfl⟩

/-- C7: `struct sde_hdmi_info` carries exactly the fields the spec lists
(a `display_type` string, the three booleans `is_hot_pluggable`,
`is_connected`, `is_edid_supported`, and `width_mm`, `height_mm` as
unsigned 32-bit integers): the field-for-field maps between the source
structure and the spec-side description are mutually inverse and preserve
every field. -/
theorem sde_hdmi_info_matches_spec :
    (∀ x, specToInfo (infoToSpec x) = x) ∧
    (∀ y, infoToSpec (specToInfo y) = y) ∧
    (∀ x, (infoToSpec x).display_type = x.display_type ∧
          (infoToSpec x).is_hot_pluggable = x.is_hot_pluggable ∧
          (infoToSpec x).is_connected = x.is_connected ∧
          (infoToSpec x).is_edid_supported = x.is_edid_supported ∧
          (infoToSpec x).width_mm = x.width_mm ∧
          (infoToSpec x).height_mm = x.height_mm) :=
  ⟨fun _ => rfl, fun _ => rfl, fun _ => ⟨rfl, rfl, rfl, rfl, rfl, rfl⟩⟩

/-- C8: `struct sde_hdmi_ctrl` holds exactly the controller handle `ctrl`,
the device-tree node `ctrl_of_node` and the u32 instance id
`hdmi_ctrl_idx` (the field-for-field maps to the spec-side description are
mutually inverse and preserve every field), and every `struct sde_hdmi`
embeds exactly one such binding as its `ctrl` field (updating and reading
that field obey the get/put laws of a single embedded component). -/
theorem sde_hdmi_ctrl_matches_spec :
    (∀ x, specToCtrl (ctrlToSpec x) = x) ∧
    (∀ y, ctrlToSpec (specToCtrl y) = y) ∧
    (∀ x, (ctrlToSpec x).ctrl = x.ctrl ∧
          (ctrlToSpec x).ctrl_of_node = x.ctrl_of_node ∧
          (ctrlToSpec x).hdmi_ctrl_idx = x.hdmi_ctrl_idx) ∧
    (∀ (s : sde_hdmi) (c : sde_hdmi_ctrl),
      ({ s with ctrl := c } : sde_hdmi).ctrl = c) ∧
    (∀ s : sde_hdmi, ({ s with ctrl := s.ctrl } : sde_hdmi) = s) :=
  ⟨fun _ => rfl, fun _ => rfl, fun _ => ⟨rfl, rfl, rfl⟩,
   fun _ _ => rfl, fun _ => rfl⟩

/-- C9: with `CONFIG_DRM_SDE_HDMI` unset, the display-count interface is
self-consistent: for every display array and maximum count, the number of
available displays returned by `sde_hdmi_get_displays` equals the number
returned by `sde_hdmi_get_num_of_displays`, both being 0. -/
theorem display_count_consistent (a : List Nat) (m : u32) :
    (sde_hdmi_get_displays a m).1 =
      ((sde_hdmi_get_num_of_displays ()).val : Int) ∧
    ((sde_hdmi_get_num_of_displays ()).val = 0) ∧
    (sde_hdmi_get_displays a m).1 = 0 :=
  ⟨by simp [sde_hdmi_get_displays, sde_hdmi_get_num_of_displays],
   by simp [sde_hdmi_get_num_of_displays], rfl⟩

/-- C10: with `CONFIG_DRM_SDE_HDMI` unset, the value returned by
`sde_hdmi_get_displays` never exceeds its `max_display_count` argument, for
every u32 maximum including 0. -/
theorem get_displays_within_max (a : List Nat) (m : u32) :
    (sde_hdmi_get_displays a m).1 ≤ (m.val : Int) := by
  simp [sde_hdmi_get_displays]
